import Mathlib

/-!
Shallow embedding of `onmt/utils/optimizers.py`: the learning-rate decay
function library, the discriminative fine-tuning parameter grouping of
`build_torch_optimizer`, the `Optimizer` training controller, and the
state-allocation / error paths of the `AdaFactor` engine.

Python floats are modelled as `ℚ` where the arithmetic is exact
(powers with integer exponents, divisions) and as `ℝ` where a square
root is taken.  Python integers are `ℤ`/`ℕ`; Python floor division
`//` on integers is `Int.fdiv`.
-/

/-- `exponential_decay(step, rate, decay_steps, start_step=0)` from the source:
`rate ** (max(step - start_step + decay_steps, 0) // decay_steps)`. -/
def exponential_decay (step : ℤ) (rate : ℚ) (decay_steps : ℤ) (start_step : ℤ) : ℚ :=
  rate ^ (Int.fdiv (max (step - start_step + decay_steps) 0) decay_steps)

/-- `rsqrt_decay(step, warmup_steps)` from the source:
`1.0 / sqrt(max(step, warmup_steps))`. -/
noncomputable def rsqrt_decay (step : ℕ) (warmup_steps : ℕ) : ℝ :=
  1 / Real.sqrt (max step warmup_steps)

/-- The configuration options consumed by `make_learning_rate_decay_fn`. -/
structure Opt where
  decay_method : String
  warmup_steps : ℕ
  train_steps : ℕ
  stlr_ratio : ℚ
  rnn_size : ℕ
  warmup_init_factor : ℚ
  learning_rate_decay : ℚ
  decay_steps : ℤ
  start_decay_steps : Option ℤ
deriving DecidableEq

/-- A `functools.partial` closure returned by `make_learning_rate_decay_fn`:
the selected decay function together with its captured hyperparameters. -/
inductive DecaySpec where
  | noam (warmup_steps : ℕ) (model_size : ℕ)
  | rsqrt (warmup_steps : ℕ)
  | stlr (warmup_steps : ℕ) (train_steps : ℕ) (ratio : ℚ)
  | invsq (warmup_steps : ℕ) (warmup_init_factor : ℚ)
  | exponential (rate : ℚ) (decay_steps : ℤ) (start_step : ℤ)
deriving DecidableEq

/-- `make_learning_rate_decay_fn(opt)` from the source.  A raised
`ValueError` is `Except.error`; falling off the end of the dispatch
(no matching method and no `start_decay_steps`) is `Except.ok none`. -/
def make_learning_rate_decay_fn (opt : Opt) : Except String (Option DecaySpec) :=
  if opt.decay_method = "noam" then
    Except.ok (some (DecaySpec.noam opt.warmup_steps opt.rnn_size))
  else if opt.decay_method = "rsqrt" then
    Except.ok (some (DecaySpec.rsqrt opt.warmup_steps))
  else if opt.decay_method = "stlr" then
    if opt.warmup_steps > opt.train_steps then
      Except.error "warmup_steps should be smaller than train_steps"
    else
      Except.ok (some (DecaySpec.stlr opt.warmup_steps opt.train_steps opt.stlr_ratio))
  else if opt.decay_method = "invsq" then
    Except.ok (some (DecaySpec.invsq opt.warmup_steps opt.warmup_init_factor))
  else
    match opt.start_decay_steps with
    | some s =>
        Except.ok (some (DecaySpec.exponential opt.learning_rate_decay opt.decay_steps s))
    | none => Except.ok none

/-- The loop `for layer_num in range(opt.dec_layers-1, -1, -1)` of
`build_torch_optimizer`: each iteration first performs `factor /= disc_ft`
and then appends the resulting factor.  Returns the appended factors in
order together with the value of `factor` after the loop. -/
def disc_ft_layer_loop (disc_ft : ℚ) : ℕ → ℚ → List ℚ × ℚ
  | 0, factor => ([], factor)
  | n + 1, factor =>
      let f := factor / disc_ft
      let rest := disc_ft_layer_loop disc_ft n f
      (f :: rest.1, rest.2)

/-- Lines 100-118 of `build_torch_optimizer`: the `factor` values of the
parameter groups appended for discriminative fine-tuning, in append order
tail (generator + final layer norm), decoder layers from last to first,
then decoder embeddings (one further division). -/
def disc_ft_factors (dec_layers : ℕ) (dec_lr_factor : ℚ) (disc_ft : ℚ) : List ℚ :=
  let factor := 1 / dec_lr_factor
  let loop := disc_ft_layer_loop disc_ft dec_layers factor
  (factor :: loop.1) ++ [loop.2 / disc_ft]

/-- The optional leading encoder group (factor 1.0) of lines 77-80,
followed by the tail/layer/embedding groups. -/
def disc_ft_group_factors (has_enc_params : Bool) (dec_layers : ℕ)
    (dec_lr_factor : ℚ) (disc_ft : ℚ) : List ℚ :=
  (if has_enc_params then [1] else []) ++ disc_ft_factors dec_layers dec_lr_factor disc_ft

/-- The hyperparameter `defaults` dict built by `AdaFactor.__init__`.
Field order follows the source dict. -/
structure AdaFactorConfig where
  lr : Option ℚ
  beta1 : ℚ
  beta2 : ℚ
  eps1 : ℚ
  eps2 : ℚ
  cliping_threshold : ℚ
  weight_decay : ℚ
  ams_grad : Bool
  enable_factorization : Bool
  enable_momentum : Bool
  non_constant_decay : Bool
deriving DecidableEq

/-- `AdaFactor.__init__`: `enable_momentum = beta1 != 0`, and
`non_constant_decay` forces `ams_grad = False`.  Arguments in source
order (`params` omitted; it does not enter the defaults dict). -/
def adafactor_init (lr : Option ℚ) (beta1 beta2 eps1 eps2 cliping_threshold : ℚ)
    (non_constant_decay enable_factorization ams_grad : Bool)
    (weight_decay : ℚ) : AdaFactorConfig :=
  let enable_momentum := beta1 != 0
  let ams_grad := if non_constant_decay then false else ams_grad
  { lr := lr, beta1 := beta1, beta2 := beta2, eps1 := eps1, eps2 := eps2,
    cliping_threshold := cliping_threshold, weight_decay := weight_decay,
    ams_grad := ams_grad, enable_factorization := enable_factorization,
    enable_momentum := enable_momentum, non_constant_decay := non_constant_decay }

/-- The `AdaFactor(params, non_constant_decay=True, enable_factorization=True,
weight_decay=0)` construction of `build_torch_optimizer` (lines 57-62): all
other arguments keep their `__init__` defaults
(`lr=None, beta1=0.9, beta2=0.999, eps1=1e-30, eps2=1e-3,
cliping_threshold=1, ams_grad=True`). -/
def build_adafactor_config : AdaFactorConfig :=
  adafactor_init none (9/10) (999/1000) (1/10^30) (1/10^3) 1 true true true 0

/-- `AdaFactor._check_shape(shape)`: `(is_matrix, is_need_reshape)`. -/
def check_shape (shape : List ℕ) : Bool × Bool :=
  if shape.length > 2 then (true, true)
  else if shape.length = 2 then (true, false)
  else if shape.length = 2 ∧ (shape.getD 0 0 = 1 ∨ shape.getD 1 0 = 1) then (false, false)
  else (false, false)

/-- `AdaFactor._experimental_reshape(shape)`: collapses the trailing
dimensions of a rank-greater-than-2 shape into two, returning
`(new_shape, copy(shape))`. -/
def experimental_reshape (shape : List ℕ) : List ℕ × List ℕ :=
  let temp_shape := shape.drop 2
  if temp_shape.length = 1 then
    ([shape.getD 0 0, shape.getD 1 0 * shape.getD 2 0], shape)
  else
    let tmp_div := temp_shape.length / 2 + temp_shape.length % 2
    ([shape.getD 0 0 * (temp_shape.drop tmp_div).prod,
      shape.getD 1 0 * (temp_shape.take tmp_div).prod], shape)

/-- The lazily created per-parameter state of `AdaFactor.step`
(lines 513-537), recording for each tensor slot the shape it was
allocated with, or `none` when the slot was never allocated. -/
structure AdaFactorState where
  step : ℕ
  exp_avg : Option (List ℕ)
  exp_avg_sq : Option (List ℕ)
  exp_avg_sq_R : Option (List ℕ)
  exp_avg_sq_C : Option (List ℕ)
  exp_avg_sq_hat : Option (List ℕ)
deriving DecidableEq

/-- The `len(state) == 0` initialization block of `AdaFactor.step`
(lines 514-537), given the flags of the group's defaults dict and the
already computed `is_matrix` and `new_shape`. -/
def adafactor_init_state (new_shape : List ℕ) (is_matrix : Bool)
    (enable_momentum enable_factorization ams_grad : Bool) : AdaFactorState :=
  { step := 0,
    exp_avg := if enable_momentum then some new_shape else none,
    exp_avg_sq_R :=
      if is_matrix && enable_factorization then some [1, new_shape.getD 1 0] else none,
    exp_avg_sq_C :=
      if is_matrix && enable_factorization then some [new_shape.getD 0 0, 1] else none,
    exp_avg_sq :=
      if is_matrix && enable_factorization then none else some new_shape,
    exp_avg_sq_hat := if ams_grad then some new_shape else none }

/-- Per-parameter shape analysis and state allocation of `AdaFactor.step`
(lines 506-537) together with the shape at which the update `u` is applied
to `p.data` (line 601: `u.view(old_shape)` when a factorization reshape
occurred, plain `u` otherwise). -/
def adafactor_param_alloc (shape : List ℕ)
    (enable_momentum enable_factorization ams_grad : Bool) :
    AdaFactorState × List ℕ :=
  let cs := check_shape shape
  let is_matrix := cs.1
  let is_need_reshape := cs.2
  let new_shape :=
    if is_need_reshape && enable_factorization then (experimental_reshape shape).1
    else shape
  let old_shape := (experimental_reshape shape).2
  (adafactor_init_state new_shape is_matrix enable_momentum enable_factorization ams_grad,
   if is_need_reshape && enable_factorization then old_shape else new_shape)

/-- A parameter as seen by `AdaFactor.step`: its tensor shape, its gradient
(`none` when `p.grad is None`, otherwise `some sparse` recording the
`is_sparse` flag) and its entry in `self.state` (`none` before first touch). -/
structure AFParam where
  shape : List ℕ
  grad : Option Bool
  state : Option AdaFactorState
deriving DecidableEq

/-- The sparse-gradient `RuntimeError` message of `AdaFactor.step`. -/
def adafactor_sparse_msg : String :=
  "Adam does not support sparse gradients, use SparseAdam instead"

/-- The per-parameter body of the `AdaFactor.step` loop, at the level of
control flow and per-parameter state: skip a parameter without gradient,
raise on a sparse gradient, otherwise lazily allocate the state and
advance its step counter (`state['step'] += 1`, line 551). -/
def adafactor_process_param (enable_momentum enable_factorization ams_grad : Bool)
    (p : AFParam) : Except String AFParam :=
  match p.grad with
  | none => Except.ok p
  | some sparse =>
      if sparse then Except.error adafactor_sparse_msg
      else
        let st := match p.state with
          | none =>
              (adafactor_param_alloc p.shape
                enable_momentum enable_factorization ams_grad).1
          | some s => s
        Except.ok { p with state := some { st with step := st.step + 1 } }

/-- The parameter loop of `AdaFactor.step` under in-place mutation
semantics: parameters are processed in order; a raised error stops the
loop and surfaces, but the mutations already applied to earlier
parameters persist.  Returns the parameter list as left in memory and
the surfaced error, if any. -/
def adafactor_step_loop (enable_momentum enable_factorization ams_grad : Bool) :
    List AFParam → List AFParam × Option String
  | [] => ([], none)
  | p :: rest =>
      match adafactor_process_param enable_momentum enable_factorization ams_grad p with
      | Except.error e => (p :: rest, some e)
      | Except.ok p₂ =>
          let r := adafactor_step_loop enable_momentum enable_factorization ams_grad rest
          (p₂ :: r.1, r.2)

/-- A parameter group of the underlying torch optimizer: parameter
identities, the optional `factor` tag, and the `lr` entry. -/
structure ParamGroup where
  params : List ℕ
  factor : Option ℚ
  lr : ℚ
deriving DecidableEq

/-- The underlying torch optimizer as the controller sees it: its param
groups and whether its class name is `FP16_Optimizer`. -/
structure TorchOpt where
  param_groups : List ParamGroup
  is_fp16_wrapper : Bool
deriving DecidableEq

/-- A gradient-clipping call made during `Optimizer.step`: either the
fp16 wrapper's `clip_master_grads(max_norm)`, or a per-group
`clip_grad_norm_(group['params'], max_norm)`. -/
inductive ClipEvent where
  | master (max_norm : ℚ)
  | perGroup (params : List ℕ) (max_norm : ℚ)
deriving DecidableEq

/-- The `Optimizer` controller state: wrapped optimizer, base learning
rate, optional decay function (decay step to scale), clipping norm,
and the two counters. -/
structure Optimizer where
  optimizer : TorchOpt
  learning_rate0 : ℚ
  learning_rate_decay_fn : Option (ℕ → ℚ)
  max_grad_norm : ℚ
  training_step : ℕ
  decay_step : ℕ
  with_fp16_wrapper : Bool

/-- `Optimizer.__init__`: `max_grad_norm or 0`, counters start at 1, and
the fp16 wrapper is detected from the wrapped optimizer. -/
def Optimizer.init (optimizer : TorchOpt) (learning_rate : ℚ)
    (learning_rate_decay_fn : Option (ℕ → ℚ)) (max_grad_norm : Option ℚ) : Optimizer :=
  { optimizer := optimizer,
    learning_rate0 := learning_rate,
    learning_rate_decay_fn := learning_rate_decay_fn,
    max_grad_norm := max_grad_norm.getD 0,
    training_step := 1,
    decay_step := 1,
    with_fp16_wrapper := optimizer.is_fp16_wrapper }

/-- `Optimizer.learning_rate()`: base rate, scaled by the decay function
evaluated at `decay_step` when one is configured. -/
def Optimizer.learning_rate (o : Optimizer) : ℚ :=
  match o.learning_rate_decay_fn with
  | none => o.learning_rate0
  | some f => f o.decay_step * o.learning_rate0

/-- The checkpoint dict of `Optimizer.state_dict` /
`Optimizer.load_state_dict`; `decay_step` and `optimizer` may be absent
on load. -/
structure OptStateDict where
  training_step : ℕ
  decay_step : Option ℕ
  optimizer : Option TorchOpt

/-- `Optimizer.state_dict()`: always serializes all three keys. -/
def Optimizer.state_dict (o : Optimizer) : OptStateDict :=
  { training_step := o.training_step,
    decay_step := some o.decay_step,
    optimizer := some o.optimizer }

/-- `Optimizer.load_state_dict(state_dict)`: `training_step` always
restored; `decay_step` and `optimizer` only when present. -/
def Optimizer.load_state_dict (o : Optimizer) (sd : OptStateDict) : Optimizer :=
  { o with
    training_step := sd.training_step,
    decay_step := sd.decay_step.getD o.decay_step,
    optimizer := sd.optimizer.getD o.optimizer }

/-- `Optimizer.zero_grad()`: delegates to the wrapped optimizer; touches
no controller state. -/
def Optimizer.zero_grad (o : Optimizer) : Optimizer := o

/-- `Optimizer.step()`: computes the current learning rate, performs the
fp16 master-gradient clipping when wrapped, then for every group sets
`lr` (times `factor` when present) and, when not wrapped and
`max_grad_norm > 0`, clips that group's gradients; finally delegates to
the wrapped optimizer and increments both counters.  Returns the new
controller state and the list of clipping calls made, in order. -/
def Optimizer.step (o : Optimizer) : Optimizer × List ClipEvent :=
  let learning_rate := o.learning_rate
  let masterClips :=
    if o.with_fp16_wrapper ∧ 0 < o.max_grad_norm then [ClipEvent.master o.max_grad_norm]
    else []
  let groups := o.optimizer.param_groups.map fun g =>
    { g with lr := match g.factor with
                   | some f => f * learning_rate
                   | none => learning_rate }
  let groupClips :=
    if ¬o.with_fp16_wrapper ∧ 0 < o.max_grad_norm then
      o.optimizer.param_groups.map fun g => ClipEvent.perGroup g.params o.max_grad_norm
    else []
  ({ o with
      optimizer := { o.optimizer with param_groups := groups },
      decay_step := o.decay_step + 1,
      training_step := o.training_step + 1 },
   masterClips ++ groupClips)

/-- `n` consecutive `Optimizer.step()` calls, keeping the controller state. -/
def Optimizer.stepN (o : Optimizer) : ℕ → Optimizer
  | 0 => o
  | n + 1 => (o.step.1).stepN n

/-- C1, counterexample: at `step = start_step = 0` with `rate = 1/2` and
`decay_steps = 10`, `exponential_decay` returns `1/2`, not `1.0`: the
exponent is `max(0 + 10, 0) // 10 = 1`, not `0` as the claim states. -/
theorem exponential_decay_at_start_counterexample :
    exponential_decay 0 (1/2) 10 0 = 1/2 ∧ (1/2 : ℚ) ≠ 1 := by
  constructor
  · norm_num [exponential_decay, Int.fdiv]
  · norm_num

/-- C1, amended: for every rate `r`, every `decay_steps d > 0` and every
`start_step`, `exponential_decay` called with `step = start_step` (so that
`step - start_step < d`) returns `r^1 = r` exactly, since the computed
exponent is `max(0 + d, 0) // d = 1`. -/
theorem exponential_decay_at_start (r : ℚ) (start d : ℤ) (hd : 0 < d) :
    exponential_decay start r d start = r := by
  unfold exponential_decay
  have h1 : start - start + d = d := by ring
  rw [h1, max_eq_left hd.le, Int.fdiv_eq_ediv _ hd.le, Int.ediv_self hd.ne', zpow_one]

/-- C1, witness for the amended theorem at `r = 1/2`, `d = 10`,
`start_step = 3`. -/
theorem exponential_decay_at_start_witness :
    (0 : ℤ) < 10 ∧ exponential_decay 3 (1/2) 10 3 = 1/2 :=
  ⟨by norm_num, exponential_decay_at_start (1/2) 3 10 (by norm_num)⟩

/-- The `opt` of the C2 counterexample: slanted-triangular decay with
`warmup_steps = train_steps = 5`. -/
def stlr_opt_eq : Opt :=
  { decay_method := "stlr", warmup_steps := 5, train_steps := 5, stlr_ratio := 32,
    rnn_size := 512, warmup_init_factor := 100, learning_rate_decay := 1/2,
    decay_steps := 10, start_decay_steps := none }

/-- C2, counterexample: with `warmup_steps = train_steps = 5` (so
`warmup_steps >= train_steps`) the `stlr` branch of
`make_learning_rate_decay_fn` raises nothing and returns a decay function,
because the source guard is the strict `opt.warmup_steps > opt.train_steps`. -/
theorem stlr_setup_check_counterexample :
    make_learning_rate_decay_fn stlr_opt_eq =
      Except.ok (some (DecaySpec.stlr 5 5 32)) ∧
    stlr_opt_eq.train_steps ≤ stlr_opt_eq.warmup_steps := by
  exact ⟨rfl, by decide⟩

/-- C2, amended: when the slanted-triangular method is selected,
`make_learning_rate_decay_fn` raises the configuration error exactly for
configurations with `warmup_steps > train_steps` (strictly); for every
configuration with `warmup_steps <= train_steps` it returns the decay
function without error. -/
theorem stlr_setup_check (opt : Opt) (h : opt.decay_method = "stlr") :
    (opt.warmup_steps ≤ opt.train_steps →
      make_learning_rate_decay_fn opt =
        Except.ok (some (DecaySpec.stlr opt.warmup_steps opt.train_steps opt.stlr_ratio))) ∧
    (opt.train_steps < opt.warmup_steps →
      make_learning_rate_decay_fn opt =
        Except.error "warmup_steps should be smaller than train_steps") := by
  constructor
  · intro hle
    simp [make_learning_rate_decay_fn, h, Nat.not_lt.mpr hle]
  · intro hlt
    simp [make_learning_rate_decay_fn, h, hlt]

/-- The `opt` of the C2 witness: `warmup_steps = 7 > train_steps = 3`. -/
def stlr_opt_bad : Opt :=
  { stlr_opt_eq with warmup_steps := 7, train_steps := 3 }

/-- C2, witness for the amended theorem: both the error side
(`warmup_steps = 7 > train_steps = 3`) and the success side
(`warmup_steps = train_steps = 5`). -/
theorem stlr_setup_check_witness :
    make_learning_rate_decay_fn stlr_opt_bad =
      Except.error "warmup_steps should be smaller than train_steps" ∧
    make_learning_rate_decay_fn stlr_opt_eq =
      Except.ok (some (DecaySpec.stlr 5 5 32)) :=
  ⟨(stlr_setup_check stlr_opt_bad rfl).2 (by norm_num [stlr_opt_bad, stlr_opt_eq]),
   (stlr_setup_check stlr_opt_eq rfl).1 (by norm_num [stlr_opt_eq])⟩

/-- C3: with a 3-layer transformer decoder and `disc_ft = 2`, the
discriminative fine-tuning groups {tail, layer2, layer1, layer0,
embeddings} receive exactly the factors
`[1/F, 1/(F*2), 1/(F*4), 1/(F*8), 1/(F*16)]` for `F = dec_lr_factor`,
a strictly decreasing sequence from output head toward embeddings. -/
theorem disc_ft_factors_three_layers (F : ℚ) (hF : 0 < F) :
    disc_ft_factors 3 F 2 = [1/F, 1/(F*2), 1/(F*4), 1/(F*8), 1/(F*16)] ∧
    List.Chain' (fun a b => b < a) (disc_ft_factors 3 F 2) := by
  have heq : disc_ft_factors 3 F 2 = [1/F, 1/(F*2), 1/(F*4), 1/(F*8), 1/(F*16)] := by
    simp only [disc_ft_factors, disc_ft_layer_loop, div_div]
    norm_num
    refine ⟨by ring, by ring, by ring⟩
  refine ⟨heq, ?_⟩
  rw [heq]
  refine List.chain'_cons.mpr ⟨?_, List.chain'_cons.mpr ⟨?_, List.chain'_cons.mpr ⟨?_,
    List.chain'_cons.mpr ⟨?_, List.chain'_singleton _⟩⟩⟩⟩
  all_goals
    rw [div_lt_div_iff₀ (by positivity) (by positivity)]
    nlinarith

/-- C3, witness at `dec_lr_factor = 4`. -/
theorem disc_ft_factors_three_layers_witness :
    disc_ft_factors 3 4 2 = [1/4, 1/(4*2), 1/(4*4), 1/(4*8), 1/(4*16)] ∧
    List.Chain' (fun a b => b < a) (disc_ft_factors 3 4 2) :=
  disc_ft_factors_three_layers 4 (by norm_num)

/-- C9: `rsqrt_decay(step, warmup_steps)` equals
`1/sqrt(max(step, warmup_steps))`; in particular it equals `1/sqrt(step)`
whenever `step >= warmup_steps` and `1/sqrt(warmup_steps)` whenever
`step < warmup_steps`. -/
theorem rsqrt_decay_spec (step warmup_steps : ℕ) :
    rsqrt_decay step warmup_steps = 1 / Real.sqrt (max step warmup_steps) ∧
    (warmup_steps ≤ step → rsqrt_decay step warmup_steps = 1 / Real.sqrt step) ∧
    (step < warmup_steps → rsqrt_decay step warmup_steps = 1 / Real.sqrt warmup_steps) := by
  refine ⟨rfl, ?_, ?_⟩
  · intro h
    unfold rsqrt_decay
    rw [max_eq_left (by exact_mod_cast h)]
  · intro h
    unfold rsqrt_decay
    rw [max_eq_right (by exact_mod_cast h.le)]

/-- C9, witness at `(step, warmup_steps) = (9, 4)` and `(2, 5)`. -/
theorem rsqrt_decay_spec_witness :
    rsqrt_decay 9 4 = 1 / Real.sqrt ((9 : ℕ) : ℝ) ∧
    rsqrt_decay 2 5 = 1 / Real.sqrt ((5 : ℕ) : ℝ) :=
  ⟨(rsqrt_decay_spec 9 4).2.1 (by norm_num), (rsqrt_decay_spec 2 5).2.2 (by norm_num)⟩

/-- C4: in `AdaFactor.step`, (a) a rank-1 (vector) parameter of shape `[n]`
gets only the dense `exp_avg_sq` accumulator and never the factored
row/column pair; (b) a rank-3 parameter of shape `[s0, s1, s2]` with
factorization enabled gets exactly the factored pair with shapes
`[1, s1*s2]` (row) and `[s0, 1]` (column) of the reshaped 2-D matrix,
no dense `exp_avg_sq`, and the update is applied at the original rank-3
shape `[s0, s1, s2]`; (c) for every parameter shape, the factored pair
and the dense accumulator are mutually exclusive. -/
theorem adafactor_alloc_spec (em ag : Bool) :
    (∀ n : ℕ,
      (adafactor_param_alloc [n] em true ag).1.exp_avg_sq_R = none ∧
      (adafactor_param_alloc [n] em true ag).1.exp_avg_sq_C = none ∧
      (adafactor_param_alloc [n] em true ag).1.exp_avg_sq = some [n]) ∧
    (∀ s0 s1 s2 : ℕ,
      (adafactor_param_alloc [s0, s1, s2] em true ag).1.exp_avg_sq_R = some [1, s1 * s2] ∧
      (adafactor_param_alloc [s0, s1, s2] em true ag).1.exp_avg_sq_C = some [s0, 1] ∧
      (adafactor_param_alloc [s0, s1, s2] em true ag).1.exp_avg_sq = none ∧
      (adafactor_param_alloc [s0, s1, s2] em true ag).2 = [s0, s1, s2]) ∧
    (∀ (shape : List ℕ) (ef : Bool),
      (adafactor_param_alloc shape em ef ag).1.exp_avg_sq = none ∨
      ((adafactor_param_alloc shape em ef ag).1.exp_avg_sq_R = none ∧
       (adafactor_param_alloc shape em ef ag).1.exp_avg_sq_C = none)) := by
  refine ⟨?_, ?_, ?_⟩
  · intro n
    simp [adafactor_param_alloc, check_shape, adafactor_init_state]
  · intro s0 s1 s2
    simp [adafactor_param_alloc, check_shape, experimental_reshape, adafactor_init_state]
  · intro shape ef
    unfold adafactor_param_alloc adafactor_init_state
    cases h : (check_shape shape).1 && ef <;> simp [h]

/-- C5: `Optimizer.step()` increments `decay_step` and `training_step`
together by exactly 1 each, unconditionally; the constructor starts both
counters at 1; `zero_grad` (like the pure `learning_rate`/`state_dict`)
touches neither counter; only `load_state_dict` can set them from a
checkpoint, possibly one without the other. -/
theorem optimizer_step_counters (o : Optimizer) (topt : TorchOpt) (lr : ℚ)
    (dfn : Option (ℕ → ℚ)) (mgn : Option ℚ) (sd : OptStateDict) :
    (o.step.1.training_step = o.training_step + 1 ∧
     o.step.1.decay_step = o.decay_step + 1) ∧
    ((Optimizer.init topt lr dfn mgn).training_step = 1 ∧
     (Optimizer.init topt lr dfn mgn).decay_step = 1) ∧
    (o.zero_grad.training_step = o.training_step ∧
     o.zero_grad.decay_step = o.decay_step) ∧
    ((o.load_state_dict sd).training_step = sd.training_step ∧
     (o.load_state_dict sd).decay_step = sd.decay_step.getD o.decay_step) := by
  refine ⟨⟨rfl, rfl⟩, ⟨rfl, rfl⟩, ⟨rfl, rfl⟩, ⟨rfl, rfl⟩⟩

/-- C6: in `Optimizer.step()` without the mixed-precision wrapper, no
clipping call is made when `max_grad_norm = 0`; when `max_grad_norm > 0`
exactly one `clip_grad_norm_` call is made per parameter group, covering
only that group's parameters (a per-group clip, not one global clip); and
in both cases every group's `lr` is set to `factor * learning_rate` when a
factor is present and to `learning_rate` otherwise. -/
theorem optimizer_step_clipping (o : Optimizer) (h : o.with_fp16_wrapper = false) :
    (o.max_grad_norm = 0 → o.step.2 = []) ∧
    (0 < o.max_grad_norm →
      o.step.2 = o.optimizer.param_groups.map fun g =>
        ClipEvent.perGroup g.params o.max_grad_norm) ∧
    (o.step.1.optimizer.param_groups = o.optimizer.param_groups.map fun g =>
      { g with lr := match g.factor with
                     | some f => f * o.learning_rate
                     | none => o.learning_rate }) := by
  refine ⟨?_, ?_, ?_⟩
  · intro h0
    simp [Optimizer.step, h, h0]
  · intro hpos
    simp [Optimizer.step, h, hpos]
  · simp [Optimizer.step]

/-- A concrete controller used by witnesses: two parameter groups, one
tagged with factor 1/2, no fp16 wrapper, `max_grad_norm = 1`. -/
def ctrl_ex : Optimizer :=
  { optimizer := { param_groups := [{ params := [0, 1], factor := some (1/2), lr := 0 },
                                    { params := [2], factor := none, lr := 0 }],
                   is_fp16_wrapper := false },
    learning_rate0 := 2,
    learning_rate_decay_fn := none,
    max_grad_norm := 1,
    training_step := 1,
    decay_step := 1,
    with_fp16_wrapper := false }

/-- C6, witness: on `ctrl_ex` (clipping norm 1, no fp16 wrapper) the step
makes exactly one per-group clipping call per group. -/
theorem optimizer_step_clipping_witness :
    ctrl_ex.step.2 = ctrl_ex.optimizer.param_groups.map fun g =>
      ClipEvent.perGroup g.params ctrl_ex.max_grad_norm :=
  (optimizer_step_clipping ctrl_ex rfl).2.1 (by norm_num [ctrl_ex])

/-- C10: `AdaFactor.__init__` with `non_constant_decay=True` forces
`ams_grad` to `False` whatever `ams_grad` argument is passed; the
builder's `AdaFactor(params, non_constant_decay=True,
enable_factorization=True, weight_decay=0)` therefore carries
`ams_grad = False`, so no built AdaFactor ever allocates
`exp_avg_sq_hat` (and the `if group['ams_grad']` max-tracking branch of
`step` is never entered). -/
theorem adafactor_ams_grad_forced_off :
    (∀ (lr : Option ℚ) (b1 b2 e1 e2 ct wd : ℚ) (ef ag : Bool),
      (adafactor_init lr b1 b2 e1 e2 ct true ef ag wd).ams_grad = false) ∧
    build_adafactor_config.ams_grad = false ∧
    (∀ (shape : List ℕ) (em ef : Bool),
      (adafactor_param_alloc shape em ef build_adafactor_config.ams_grad).1.exp_avg_sq_hat
        = none) := by
  refine ⟨fun lr b1 b2 e1 e2 ct wd ef ag => rfl, rfl, ?_⟩
  intro shape em ef
  simp [adafactor_param_alloc, adafactor_init_state, build_adafactor_config, adafactor_init]

/-- `Optimizer.step` never changes the base learning rate or the decay
function, and always advances `decay_step` by one. -/
theorem optimizer_step_config_frame (o : Optimizer) :
    o.step.1.learning_rate0 = o.learning_rate0 ∧
    o.step.1.learning_rate_decay_fn = o.learning_rate_decay_fn ∧
    o.step.1.decay_step = o.decay_step + 1 :=
  ⟨rfl, rfl, rfl⟩

/-- Two controllers agreeing on base rate, decay function and decay step
produce the same `learning_rate()` after any number of `step()` calls. -/
theorem stepN_learning_rate_congr (n : ℕ) :
    ∀ a b : Optimizer, a.learning_rate0 = b.learning_rate0 →
      a.learning_rate_decay_fn = b.learning_rate_decay_fn →
      a.decay_step = b.decay_step →
      (a.stepN n).learning_rate = (b.stepN n).learning_rate := by
  induction n with
  | zero =>
      intro a b h0 h1 h2
      unfold Optimizer.stepN Optimizer.learning_rate
      rw [h0, h1, h2]
  | succ n ih =>
      intro a b h0 h1 h2
      exact ih a.step.1 b.step.1 h0 h1 (by rw [optimizer_step_config_frame a |>.2.2,
        optimizer_step_config_frame b |>.2.2, h2])

/-- C7: restoring `state_dict()` into a controller with the same base
learning rate and decay function restores `training_step` and
`decay_step` to the serialized values, and every subsequent sequence of
`step()` calls yields the same `learning_rate()` as the original
controller. -/
theorem optimizer_state_roundtrip (o₁ o₂ : Optimizer) (n : ℕ)
    (h0 : o₂.learning_rate0 = o₁.learning_rate0)
    (h1 : o₂.learning_rate_decay_fn = o₁.learning_rate_decay_fn) :
    ((o₂.load_state_dict o₁.state_dict).training_step = o₁.training_step ∧
     (o₂.load_state_dict o₁.state_dict).decay_step = o₁.decay_step) ∧
    ((o₂.load_state_dict o₁.state_dict).stepN n).learning_rate =
      (o₁.stepN n).learning_rate := by
  refine ⟨⟨rfl, rfl⟩, ?_⟩
  exact stepN_learning_rate_congr n _ o₁ h0 h1 rfl

/-- A second concrete controller: same configuration as `ctrl_ex` up to a
decay function, different counters. -/
def ctrl_a : Optimizer :=
  { optimizer := { param_groups := [], is_fp16_wrapper := false },
    learning_rate0 := 2,
    learning_rate_decay_fn := some fun k => (k : ℚ),
    max_grad_norm := 0,
    training_step := 5,
    decay_step := 7,
    with_fp16_wrapper := false }

/-- Same configuration as `ctrl_a` with diverged counters and clipping. -/
def ctrl_b : Optimizer :=
  { ctrl_a with training_step := 3, decay_step := 4, max_grad_norm := 1 }

/-- C7, witness: `ctrl_a`'s checkpoint loaded into `ctrl_b`, followed by
two `step()` calls. -/
theorem optimizer_state_roundtrip_witness :
    (((ctrl_b.load_state_dict ctrl_a.state_dict).training_step = ctrl_a.training_step ∧
      (ctrl_b.load_state_dict ctrl_a.state_dict).decay_step = ctrl_a.decay_step) ∧
     ((ctrl_b.load_state_dict ctrl_a.state_dict).stepN 2).learning_rate =
       (ctrl_a.stepN 2).learning_rate) :=
  optimizer_state_roundtrip ctrl_a ctrl_b 2 rfl rfl

/-- A dense-gradient rank-2 parameter, untouched state. -/
def af_dense_param : AFParam := { shape := [2, 3], grad := some false, state := none }

/-- A sparse-gradient parameter, untouched state. -/
def af_sparse_param : AFParam := { shape := [4], grad := some true, state := none }

/-- C8, counterexample: running `AdaFactor.step` on a dense parameter
followed by a sparse one surfaces the sparse-gradient error, but the
parameter list is NOT left unchanged: the dense parameter visited before
the raise has already had its state allocated and its step counter
advanced, against the claim that the aborted step leaves all parameters
and all per-parameter optimizer state unchanged. -/
theorem adafactor_sparse_abort_counterexample :
    (adafactor_step_loop true true false [af_dense_param, af_sparse_param]).2
      = some adafactor_sparse_msg ∧
    (adafactor_step_loop true true false [af_dense_param, af_sparse_param]).1
      ≠ [af_dense_param, af_sparse_param] := by
  decide

/-- C8, amended: `AdaFactor.step` raises the sparse-gradient error if and
only if some visited parameter (with a gradient) carries a sparse
gradient, and the error surfaces to the caller; the step aborts at the
offending parameter, so parameters visited before it keep their applied
updates and state, while the offending parameter and all later ones are
left unchanged. -/
theorem adafactor_sparse_abort (em ef ag : Bool) (ps pre post : List AFParam) (p : AFParam)
    (hpre : ∀ q ∈ pre, q.grad ≠ some true) (hp : p.grad = some true) :
    ((adafactor_step_loop em ef ag ps).2.isSome = true ↔
      ∃ q ∈ ps, q.grad = some true) ∧
    adafactor_step_loop em ef ag (pre ++ p :: post) =
      ((adafactor_step_loop em ef ag pre).1 ++ p :: post, some adafactor_sparse_msg) := by
  constructor
  · induction ps with
    | nil => simp [adafactor_step_loop]
    | cons q rest ih =>
        cases hg : q.grad with
        | none => simp [adafactor_step_loop, adafactor_process_param, hg, ih]
        | some s =>
            cases s with
            | true => simp [adafactor_step_loop, adafactor_process_param, hg]
            | false => simp [adafactor_step_loop, adafactor_process_param, hg, ih]
  · induction pre with
    | nil => simp [adafactor_step_loop, adafactor_process_param, hp]
    | cons q rest ih =>
        have hq : q.grad ≠ some true := hpre q (by simp)
        have hrest : ∀ r ∈ rest, r.grad ≠ some true := fun r hr => hpre r (by simp [hr])
        cases hg : q.grad with
        | none => simp [adafactor_step_loop, adafactor_process_param, hg, ih hrest]
        | some s =>
            cases s with
            | true => exact absurd hg hq
            | false => simp [adafactor_step_loop, adafactor_process_param, hg, ih hrest]

/-- C8, witness for the amended theorem: a dense parameter followed by a
sparse one; the loop surfaces the error and keeps the dense parameter's
processed state. -/
theorem adafactor_sparse_abort_witness :
    ((adafactor_step_loop true true false [af_dense_param, af_sparse_param]).2.isSome = true ↔
      ∃ q ∈ [af_dense_param, af_sparse_param], q.grad = some true) ∧
    adafactor_step_loop true true false ([af_dense_param] ++ af_sparse_param :: []) =
      ((adafactor_step_loop true true false [af_dense_param]).1 ++ af_sparse_param :: [],
       some adafactor_sparse_msg) :=
  adafactor_sparse_abort true true false [af_dense_param, af_sparse_param]
    [af_dense_param] [] af_sparse_param (by decide) (by decide)
